import Mathlib

/-!
Shallow embedding of `src/appv2.py`, a single-session Streamlit chat
front-end (Gemini for chat turns, OpenAI for the end-of-session summary).

The Python program keeps its conversation state in `st.session_state`
(`messages`, `conversation_ended`, `api_keys_provided`, plus the two stored
API keys).  We model that state as the structure `AppState` and each
user-triggered handler as a pure function on it.  Remote services are
opaque request/response collaborators, so every handler that performs a
remote call takes the outcome of that call as an explicit parameter and
additionally returns the list of payloads it actually sent to the remote
service (`[]` when no remote call was made on that path).

Python string primitives used by the program (`str.strip`, `str.split`,
the `in` substring test, `str.startswith`) are modelled on `List Char`
with structural recursion so that every definition is executable and
kernel-reducible.
-/

namespace AppV2

/-- Python truthiness of the whitespace set recognised by `str.strip()`
(the six ASCII whitespace characters; the program only ever handles
ASCII markers, so the unicode extension is irrelevant here). -/
def isPySpace (c : Char) : Bool :=
  c == ' ' || c == '\t' || c == '\n' || c == '\r' ||
  c == Char.ofNat 11 || c == Char.ofNat 12

/-- `str.strip()` on a character list: drop whitespace from both ends. -/
def pyStripList (l : List Char) : List Char :=
  ((l.dropWhile isPySpace).reverse.dropWhile isPySpace).reverse

/-- Python `str.strip()`. -/
def pyStrip (s : String) : String :=
  String.mk (pyStripList s.data)

/-- Python `str.startswith(pre)`: the second list is an initial segment of
the first. -/
def listStartsWith : List Char → List Char → Bool
  | _, [] => true
  | [], _ :: _ => false
  | a :: as, b :: bs => a == b && listStartsWith as bs

/-- Python `str.startswith`. -/
def pyStartsWith (s pre : String) : Bool :=
  listStartsWith s.data pre.data

/-- Python substring containment `needle in hay`. -/
def hasSub (needle : List Char) : List Char → Bool
  | [] => listStartsWith [] needle
  | c :: rest => listStartsWith (c :: rest) needle || hasSub needle rest

/-- Python `needle in hay` on strings. -/
def pyContains (hay needle : String) : Bool :=
  hasSub needle.data hay.data

/-- Worker for Python `str.split(sep)` with a non-empty separator: scan the
haystack left to right, cutting at each non-overlapping occurrence of `sep`.
`cur` accumulates the current fragment in reverse; `fuel` bounds the scan
(any `fuel ≥` haystack length is enough, since every step consumes at
least one character). -/
def pySplitGo (sep : List Char) : List Char → List Char → Nat → List (List Char)
  | cur, [], _ => [cur.reverse]
  | cur, c :: rest, 0 => [cur.reverse ++ (c :: rest)]
  | cur, c :: rest, fuel + 1 =>
    if listStartsWith (c :: rest) sep then
      cur.reverse :: pySplitGo sep [] ((c :: rest).drop sep.length) fuel
    else
      pySplitGo sep (c :: cur) rest fuel

/-- Python `s.split(sep)` for a non-empty `sep` (the program only splits on
the literal marker `"Sentiment:"`). -/
def pySplit (s sep : String) : List String :=
  (pySplitGo sep.data [] s.data s.data.length).map String.mk

/-- Role of one chat turn; the program only ever appends the string roles
`"user"` and `"assistant"`. -/
inductive Role where
  | user
  | assistant
deriving DecidableEq, Repr

/-- The string the program stores in a message dict for each role. -/
def Role.str : Role → String
  | .user => "user"
  | .assistant => "assistant"

/-- One entry of `st.session_state.messages`. -/
structure Message where
  role : Role
  content : String
deriving DecidableEq, Repr

/-- The session state the program keeps in `st.session_state`:
`messages`, `conversation_ended`, `api_keys_provided` (initialised by
`initialize_session_state`) and the two stored keys (set only by the
credential form on success, hence optional). -/
structure AppState where
  messages : List Message
  conversation_ended : Bool
  api_keys_provided : Bool
  google_api_key : Option String
  openai_api_key : Option String
deriving DecidableEq, Repr

/-- Outcome of one `model.generate_content` call against the Gemini API:
success with the returned text, an `InvalidArgument` exception (rejected
key), or any other exception. -/
inductive GeminiOutcome where
  | ok (text : String)
  | invalidArg
  | otherErr
deriving DecidableEq, Repr

/-- `get_gemini_response` (`src/appv2.py` lines 24-37): returns the text on
success; on `InvalidArgument` shows an error, sets
`api_keys_provided = False` and returns `None`; on any other exception
shows an error and returns `None`. -/
def get_gemini_response (s : AppState) (outcome : GeminiOutcome) :
    Option String × AppState :=
  match outcome with
  | .ok text => (some text, s)
  | .invalidArg => (none, { s with api_keys_provided := false })
  | .otherErr => (none, s)

/-- The chat-turn handler of `main` (`src/appv2.py` lines 154, 174-182).
`main` returns at line 167 when `api_keys_provided` is false, and the chat
input only exists while `conversation_ended` is false; the walrus
`if prompt := st.chat_input(...)` only fires on a non-empty prompt.
Inside: the user message is appended first, then `get_gemini_response` is
called, and `if response:` appends the assistant message only when the
response is neither `None` nor the empty string (Python truthiness).
The second component lists the prompts sent to the Gemini API. -/
def mainSend (s : AppState) (prompt : String) (outcome : GeminiOutcome) :
    AppState × List String :=
  if !s.api_keys_provided then (s, [])
  else if s.conversation_ended then (s, [])
  else if prompt == "" then (s, [])
  else
    let s1 := { s with messages := s.messages ++ [⟨Role.user, prompt⟩] }
    let r := get_gemini_response s1 outcome
    match r.1 with
    | some text =>
      if text == "" then (r.2, [prompt])
      else ({ r.2 with messages := r.2.messages ++ [⟨Role.assistant, text⟩] },
            [prompt])
    | none => (r.2, [prompt])

/-- The "End Conversation" button handler (`src/appv2.py` line 186). -/
def end_conversation (s : AppState) : AppState :=
  { s with conversation_ended := true }

/-- The "Start New Conversation" button handler
(`src/appv2.py` lines 200-203): clears `messages` and
`conversation_ended`, touches nothing else. -/
def start_new_conversation (s : AppState) : AppState :=
  { s with messages := [], conversation_ended := false }

/-- Outcome of the credential probe call (the quick
`test_model.generate_content("Test", ...)` at line 115). -/
inductive ProbeOutcome where
  | ok
  | err
deriving DecidableEq, Repr

/-- Result reported by the credential form. -/
inductive SubmitResult where
  /-- line 125: "Please provide both API keys" (a key is empty after
  stripping). -/
  | missing
  /-- line 103: the Google key does not start with "AIza". -/
  | malformedGoogle
  /-- line 106: the OpenAI key does not start with "sk-". -/
  | malformedOpenai
  /-- line 123: the probe call raised. -/
  | rejected
  /-- lines 118-121: keys committed, `api_keys_provided = True`. -/
  | success
deriving DecidableEq, Repr

/-- The submitted branch of `api_key_input_form`
(`src/appv2.py` lines 99-125).  Checks Python truthiness of the stripped
keys, then the two prefix checks on the RAW inputs
(`google_key.startswith("AIza")`, `openai_key.startswith("sk-")`), then
probes the Gemini API with the RAW google key
(`configure(api_key=google_key)`); on success stores the STRIPPED keys and
sets `api_keys_provided`.  The last component lists the keys the probe
call was issued with (`[]` when no probe call was made). -/
def api_key_input_form (s : AppState) (google_key openai_key : String)
    (probe : ProbeOutcome) : SubmitResult × AppState × List String :=
  if pyStrip google_key != "" && pyStrip openai_key != "" then
    if !pyStartsWith google_key "AIza" then (.malformedGoogle, s, [])
    else if !pyStartsWith openai_key "sk-" then (.malformedOpenai, s, [])
    else
      match probe with
      | .ok =>
        (.success,
         { s with
             google_api_key := some (pyStrip google_key)
             openai_api_key := some (pyStrip openai_key)
             api_keys_provided := true },
         [google_key])
      | .err => (.rejected, s, [google_key])
  else (.missing, s, [])

/-- Outcome of the `summary_chain.invoke` call against the OpenAI API. -/
inductive OpenAIOutcome where
  | ok (text : String)
  | err
deriving DecidableEq, Repr

/-- The literal instruction template of lines 49-57, with the
`conversation` placeholder substituted (as `ChatPromptTemplate` formatting
does); whitespace reproduced byte for byte from the source. -/
def summaryTemplate (conversation : String) : String :=
  "Summarize this conversation in under 150 words. \n        Also provide one-word sentiment (Positive/Negative/Neutral).\n        \n        Conversation:\n        "
    ++ conversation ++ "\n        \n        Summary:"

/-- The serialization of the history built at lines 44-47:
`"\n".join(f"{msg['role']}: {msg['content']}" for msg in messages)`. -/
def conversationText (messages : List Message) : String :=
  String.intercalate "\n" (messages.map fun m => m.role.str ++ ": " ++ m.content)

/-- `generate_summary_and_sentiment` (`src/appv2.py` lines 39-77).
Empty history returns the fixed default with no remote call.  Otherwise
the serialized conversation is sent inside the instruction template; a
raised exception yields `(None, None)` (modelled `none`).  On a returned
text, `if "Sentiment:" in result:` splits on the marker — Python's
`summary, sentiment = result.split("Sentiment:")` unpacks successfully
only when the marker occurs exactly once (two fragments); with three or
more fragments the unpacking raises `ValueError`, which the enclosing
`except` turns into `(None, None)`.  Without the marker the whole text is
the summary and the sentiment defaults to `"Neutral"`.  The second
component lists the prompts sent to the OpenAI API. -/
def generate_summary_and_sentiment (messages : List Message)
    (outcome : OpenAIOutcome) : Option (String × String) × List String :=
  if messages.isEmpty then (some ("No conversation to summarize", "Neutral"), [])
  else
    let sent := summaryTemplate (conversationText messages)
    match outcome with
    | .err => (none, [sent])
    | .ok result =>
      if pyContains result "Sentiment:" then
        match pySplit result "Sentiment:" with
        | [summary, sentiment0] =>
          let sentiment := pyStrip sentiment0
          (some (pyStrip summary, pyStrip sentiment), [sent])
        | _ => (none, [sent])
      else (some (pyStrip result, "Neutral"), [sent])

/-- The three sentiment classes named by the display at line 198. -/
inductive Sentiment where
  | positive
  | negative
  | neutral
deriving DecidableEq, Repr

/-- The display classification at line 198:
`'😊' if 'Positive' in sentiment else '😞' if 'Negative' in sentiment else '😐'`,
with the three emoji rendered as the three `Sentiment` classes. -/
def display_sentiment (sentiment : String) : Sentiment :=
  if pyContains sentiment "Positive" then .positive
  else if pyContains sentiment "Negative" then .negative
  else .neutral

/-! Helper lemmas about `dropWhile`, used to show that Python stripping is
idempotent (the source strips the sentiment fragment twice, at lines 69
and 74). -/

theorem dropWhile_dropWhile {α : Type} (p : α → Bool) (l : List α) :
    (l.dropWhile p).dropWhile p = l.dropWhile p := by
  induction l with
  | nil => rfl
  | cons a t ih =>
    rw [List.dropWhile_cons]
    by_cases h : p a = true
    · rw [if_pos h]; exact ih
    · rw [if_neg h, List.dropWhile_cons, if_neg h]

theorem head?_dropWhile_false {α : Type} {p : α → Bool} {l : List α} {a : α}
    (h : (l.dropWhile p).head? = some a) : p a = false := by
  induction l with
  | nil => simp [List.dropWhile] at h
  | cons b t ih =>
    rw [List.dropWhile_cons] at h
    by_cases hb : p b = true
    · rw [if_pos hb] at h
      exact ih h
    · rw [if_neg hb] at h
      simp only [List.head?_cons, Option.some.injEq] at h
      subst h
      simpa using hb

theorem dropWhile_eq_self_of_head {α : Type} {p : α → Bool} {l : List α}
    (h : ∀ a, l.head? = some a → p a = false) : l.dropWhile p = l := by
  cases l with
  | nil => rfl
  | cons a t =>
    rw [List.dropWhile_cons, h a rfl]
    simp

theorem getLast?_dropWhile {α : Type} {p : α → Bool} {l : List α}
    (h : l.dropWhile p ≠ []) : (l.dropWhile p).getLast? = l.getLast? := by
  induction l with
  | nil => simp [List.dropWhile] at h
  | cons a t ih =>
    rw [List.dropWhile_cons] at h ⊢
    by_cases hp : p a = true
    · rw [if_pos hp] at h ⊢
      rw [ih h]
      have ht : t ≠ [] := by
        intro he
        rw [he] at h
        simp [List.dropWhile] at h
      cases t with
      | nil => exact absurd rfl ht
      | cons b t2 => rw [List.getLast?_cons_cons]
    · rw [if_neg hp]

theorem pyStripList_idem (l : List Char) :
    pyStripList (pyStripList l) = pyStripList l := by
  have h1 : (pyStripList l).dropWhile isPySpace = pyStripList l := by
    apply dropWhile_eq_self_of_head
    intro a ha
    unfold pyStripList at ha
    rw [List.head?_reverse] at ha
    have hne : (l.dropWhile isPySpace).reverse.dropWhile isPySpace ≠ [] := by
      intro he
      rw [he] at ha
      simp at ha
    rw [getLast?_dropWhile hne, List.getLast?_reverse] at ha
    exact head?_dropWhile_false ha
  show ((((pyStripList l).dropWhile isPySpace).reverse).dropWhile isPySpace).reverse
      = pyStripList l
  rw [h1]
  show (((((l.dropWhile isPySpace).reverse.dropWhile isPySpace).reverse).reverse).dropWhile isPySpace).reverse
      = pyStripList l
  rw [List.reverse_reverse, dropWhile_dropWhile]
  rfl

theorem pyStrip_idem (s : String) : pyStrip (pyStrip s) = pyStrip s :=
  congrArg String.mk (pyStripList_idem s.data)

/-- C1, counterexample: with the session gated, a chat turn whose remote
call SUCCEEDS but returns the empty string appends only the user message
(`if response:` at line 180 treats `""` as falsy), so a successful call
can grow `history` by 1, not 2 as the claim states. -/
theorem send_ok_empty_appends_one :
    (mainSend ⟨[], false, true, some "AIzaK", some "sk-K"⟩ "Hi"
        (GeminiOutcome.ok "")).1.messages = [⟨Role.user, "Hi"⟩] := by
  decide

/-- C1 (amended): while the session is gated, a send whose remote call
succeeds with NON-EMPTY text appends exactly the user message followed by
the assistant message (2 messages); a send whose remote call succeeds
with empty text, and a send that fails with any non-credential exception
(`TransientRemoteError`), append exactly the user message (1 message). -/
theorem send_history_growth (s : AppState) (prompt : String)
    (hp : s.api_keys_provided = true) (he : s.conversation_ended = false)
    (hne : prompt ≠ "") :
    (∀ text, text ≠ "" →
      (mainSend s prompt (GeminiOutcome.ok text)).1.messages
        = s.messages ++ [⟨Role.user, prompt⟩, ⟨Role.assistant, text⟩])
    ∧ (mainSend s prompt (GeminiOutcome.ok "")).1.messages
        = s.messages ++ [⟨Role.user, prompt⟩]
    ∧ (mainSend s prompt GeminiOutcome.otherErr).1.messages
        = s.messages ++ [⟨Role.user, prompt⟩] := by
  refine ⟨fun text ht => ?_, ?_, ?_⟩ <;>
    simp [mainSend, get_gemini_response, hp, he, hne, *]

/-- Witness for C1's amended theorem at a concrete gated state. -/
theorem send_history_growth_w :
    (mainSend ⟨[], false, true, some "AIzaK", some "sk-K"⟩ "Hi"
        (GeminiOutcome.ok "Hello")).1.messages
      = [⟨Role.user, "Hi"⟩, ⟨Role.assistant, "Hello"⟩] := by
  have h := send_history_growth ⟨[], false, true, some "AIzaK", some "sk-K"⟩
    "Hi" rfl rfl (by decide)
  simpa using h.1 "Hello" (by decide)

/-- C8: a gated send whose remote call raises `InvalidArgument` (the
`AuthError` classification) resets `api_keys_provided` to `false`, appends
no assistant message, keeps the just-appended user message, and leaves the
ended flag and both stored keys unchanged. -/
theorem auth_error_demotes (s : AppState) (prompt : String)
    (hp : s.api_keys_provided = true) (he : s.conversation_ended = false)
    (hne : prompt ≠ "") :
    (mainSend s prompt GeminiOutcome.invalidArg).1.api_keys_provided = false
    ∧ (mainSend s prompt GeminiOutcome.invalidArg).1.messages
        = s.messages ++ [⟨Role.user, prompt⟩]
    ∧ (mainSend s prompt GeminiOutcome.invalidArg).1.conversation_ended
        = s.conversation_ended
    ∧ (mainSend s prompt GeminiOutcome.invalidArg).1.google_api_key
        = s.google_api_key
    ∧ (mainSend s prompt GeminiOutcome.invalidArg).1.openai_api_key
        = s.openai_api_key := by
  refine ⟨?_, ?_, ?_, ?_, ?_⟩ <;>
    simp [mainSend, get_gemini_response, hp, he, hne]

/-- Witness for C8 at a concrete gated state. -/
theorem auth_error_demotes_w :
    (mainSend ⟨[⟨Role.user, "a"⟩], false, true, some "AIzaK", some "sk-K"⟩
        "Hi" GeminiOutcome.invalidArg).1.api_keys_provided = false
    ∧ (mainSend ⟨[⟨Role.user, "a"⟩], false, true, some "AIzaK", some "sk-K"⟩
        "Hi" GeminiOutcome.invalidArg).1.messages
      = [⟨Role.user, "a"⟩] ++ [⟨Role.user, "Hi"⟩] := by
  have h := auth_error_demotes
    ⟨[⟨Role.user, "a"⟩], false, true, some "AIzaK", some "sk-K"⟩
    "Hi" rfl rfl (by decide)
  exact ⟨h.1, h.2.1⟩

/-- C9: for a session in the ended state, the "Start New Conversation"
handler clears `messages`, resets `conversation_ended`, and leaves
`api_keys_provided` and both stored keys unchanged. -/
theorem start_new_resets (s : AppState) (he : s.conversation_ended = true) :
    (start_new_conversation s).messages = []
    ∧ (start_new_conversation s).conversation_ended = false
    ∧ (start_new_conversation s).api_keys_provided = s.api_keys_provided
    ∧ (start_new_conversation s).google_api_key = s.google_api_key
    ∧ (start_new_conversation s).openai_api_key = s.openai_api_key :=
  ⟨rfl, rfl, rfl, rfl, rfl⟩

/-- Witness for C9 at a concrete ended state. -/
theorem start_new_resets_w :
    (start_new_conversation
        ⟨[⟨Role.user, "a"⟩], true, true, some "AIzaK", some "sk-K"⟩).messages = []
    ∧ (start_new_conversation
        ⟨[⟨Role.user, "a"⟩], true, true, some "AIzaK", some "sk-K"⟩).google_api_key
      = some "AIzaK" := by
  have h := start_new_resets
    ⟨[⟨Role.user, "a"⟩], true, true, some "AIzaK", some "sk-K"⟩ rfl
  exact ⟨h.1, h.2.2.2.1⟩

/-- C6, counterexample: a submission whose Google key lacks the "AIza"
marker but whose OpenAI key is empty after stripping fails at the
emptiness check of line 100 (reported as the "Please provide both API
keys" warning, i.e. `MissingCredential`), not with `MalformedCredential`
as the claim states for every such submission.  No probe is made and the
state is unchanged, but the reported failure differs. -/
theorem malformed_google_empty_openai :
    api_key_input_form ⟨[], false, false, none, none⟩ "xyz" "" ProbeOutcome.ok
      = (SubmitResult.missing, ⟨[], false, false, none, none⟩, [])
    ∧ pyStartsWith "xyz" "AIza" = false
    ∧ SubmitResult.missing ≠ SubmitResult.malformedGoogle := by
  decide

/-- C6 (amended): for every submission in which BOTH keys are non-empty
after stripping and the Google key does not start with "AIza", the form
fails with `MalformedCredential` for the Google key, issues no probe
call, and leaves the whole session state (in particular
`api_keys_provided`) unchanged, regardless of the OpenAI key; when a key
is empty after stripping, the submission instead fails with
`MissingCredential`, likewise without a probe and without a state
change. -/
theorem malformed_google_rejected (s : AppState) (g o : String)
    (probe : ProbeOutcome)
    (hg : pyStrip g ≠ "") (ho : pyStrip o ≠ "")
    (hpre : pyStartsWith g "AIza" = false) :
    api_key_input_form s g o probe = (SubmitResult.malformedGoogle, s, []) := by
  simp [api_key_input_form, hg, ho, hpre]

/-- Witness for C6's amended theorem: malformed Google key next to a
well-formed OpenAI key. -/
theorem malformed_google_rejected_w :
    api_key_input_form ⟨[], false, false, none, none⟩ "xyz" "sk-ok"
        ProbeOutcome.ok
      = (SubmitResult.malformedGoogle, ⟨[], false, false, none, none⟩, []) :=
  malformed_google_rejected ⟨[], false, false, none, none⟩ "xyz" "sk-ok"
    ProbeOutcome.ok (by decide) (by decide) (by decide)

/-- C7: when both keys pass the local checks but the probe call fails, the
submission reports `CredentialRejected`, the session state is unchanged
(so neither key is committed and `api_keys_provided` stays `false`), and a
subsequent send on that state does nothing and issues no remote call. -/
theorem probe_failure_leaves_ungated (s : AppState) (g o prompt : String)
    (outcome : GeminiOutcome)
    (hp : s.api_keys_provided = false)
    (hg : pyStrip g ≠ "") (ho : pyStrip o ≠ "")
    (hg2 : pyStartsWith g "AIza" = true) (ho2 : pyStartsWith o "sk-" = true) :
    api_key_input_form s g o ProbeOutcome.err = (SubmitResult.rejected, s, [g])
    ∧ (api_key_input_form s g o ProbeOutcome.err).2.1.api_keys_provided = false
    ∧ mainSend s prompt outcome = (s, []) := by
  refine ⟨?_, ?_, ?_⟩
  · simp [api_key_input_form, hg, ho, hg2, ho2]
  · simp [api_key_input_form, hg, ho, hg2, ho2, hp]
  · simp [mainSend, hp]

/-- Witness for C7 at a concrete ungated state and well-formed keys. -/
theorem probe_failure_leaves_ungated_w :
    api_key_input_form ⟨[], false, false, none, none⟩ "AIzaT" "sk-T"
        ProbeOutcome.err
      = (SubmitResult.rejected, ⟨[], false, false, none, none⟩, ["AIzaT"])
    ∧ mainSend ⟨[], false, false, none, none⟩ "Hi" (GeminiOutcome.ok "x")
      = (⟨[], false, false, none, none⟩, []) := by
  have h := probe_failure_leaves_ungated ⟨[], false, false, none, none⟩
    "AIzaT" "sk-T" "Hi" (GeminiOutcome.ok "x") rfl
    (by decide) (by decide) (by decide) (by decide)
  exact ⟨h.1, h.2.2⟩

/-- C10: the two local checks and the probe operate on the RAW key inputs
while the keys committed on success are the stripped versions.  Part one:
on a successful submission the committed keys are `pyStrip` of the inputs
and the probe was issued with the raw Google key.  Part two: a Google key
whose STRIPPED form starts with "AIza" but whose raw form does not (e.g.
leading whitespace) is rejected at the marker check, before any probe. -/
theorem raw_checked_stripped_committed :
    (∀ (s : AppState) (g o : String),
        pyStrip g ≠ "" → pyStrip o ≠ "" →
        pyStartsWith g "AIza" = true → pyStartsWith o "sk-" = true →
        api_key_input_form s g o ProbeOutcome.ok
          = (SubmitResult.success,
             { s with
                 google_api_key := some (pyStrip g)
                 openai_api_key := some (pyStrip o)
                 api_keys_provided := true },
             [g]))
    ∧ (∀ (s : AppState) (g o : String) (probe : ProbeOutcome),
        pyStrip g ≠ "" → pyStrip o ≠ "" →
        pyStartsWith (pyStrip g) "AIza" = true →
        pyStartsWith g "AIza" = false →
        api_key_input_form s g o probe
          = (SubmitResult.malformedGoogle, s, [])) := by
  constructor
  · intro s g o hg ho hg2 ho2
    simp [api_key_input_form, hg, ho, hg2, ho2]
  · intro s g o probe hg ho _ hraw
    simp [api_key_input_form, hg, ho, hraw]

/-- Witness for C10: a Google key with a trailing blank is probed raw and
committed stripped; a Google key with a leading blank whose stripped form
is well-formed is rejected at the marker check. -/
theorem raw_checked_stripped_committed_w :
    api_key_input_form ⟨[], false, false, none, none⟩ "AIzaA " "sk-B "
        ProbeOutcome.ok
      = (SubmitResult.success, ⟨[], false, true, some "AIzaA", some "sk-B"⟩,
         ["AIzaA "])
    ∧ api_key_input_form ⟨[], false, false, none, none⟩ " AIzaA" "sk-B"
        ProbeOutcome.ok
      = (SubmitResult.malformedGoogle, ⟨[], false, false, none, none⟩, []) := by
  constructor
  · have h := raw_checked_stripped_committed.1 ⟨[], false, false, none, none⟩
      "AIzaA " "sk-B " (by decide) (by decide) (by decide) (by decide)
    exact h.trans (by decide)
  · exact raw_checked_stripped_committed.2 ⟨[], false, false, none, none⟩
      " AIzaA" "sk-B" ProbeOutcome.ok (by decide) (by decide) (by decide)
      (by decide)

/-- C2, counterexample: a successful summarize can return a sentiment
string outside the enumeration.  With a non-empty history and the remote
text `"Nice chat. Sentiment: Happy"`, the parser returns the sentiment
`"Happy"`, which is none of `"Positive"`, `"Negative"`, `"Neutral"`; the
code only normalizes into the enumeration when choosing the display
emoji at line 198. -/
theorem summarize_sentiment_outside_enum :
    (generate_summary_and_sentiment [⟨Role.user, "hi"⟩]
        (OpenAIOutcome.ok "Nice chat. Sentiment: Happy")).1
      = some ("Nice chat.", "Happy")
    ∧ ("Happy" ≠ "Positive" ∧ "Happy" ≠ "Negative" ∧ "Happy" ≠ "Neutral") := by
  decide

/-- C2 (amended): for every successful summarize, the returned sentiment
string is the raw remote-provided text (stripped) and need not belong to
the enumeration; the sentiment CLASS used for display, computed by
substring containment at line 198, is always one of Positive, Negative,
Neutral; and on an empty history the returned pair is exactly the fixed
default, whose sentiment is in the enumeration. -/
theorem summarize_sentiment_display (messages : List Message)
    (outcome : OpenAIOutcome) (su se : String)
    (h : (generate_summary_and_sentiment messages outcome).1 = some (su, se)) :
    (display_sentiment se = Sentiment.positive
      ∨ display_sentiment se = Sentiment.negative
      ∨ display_sentiment se = Sentiment.neutral)
    ∧ (messages = [] →
        su = "No conversation to summarize" ∧ se = "Neutral") := by
  constructor
  · by_cases h1 : pyContains se "Positive" = true
    · exact Or.inl (by simp [display_sentiment, h1])
    · by_cases h2 : pyContains se "Negative" = true
      · exact Or.inr (Or.inl (by simp [display_sentiment, h1, h2]))
      · exact Or.inr (Or.inr (by simp [display_sentiment, h1, h2]))
  · intro hm
    subst hm
    simp [generate_summary_and_sentiment] at h
    exact ⟨h.1.symm, h.2.symm⟩

/-- Witness for C2's amended theorem at a concrete successful summarize. -/
theorem summarize_sentiment_display_w :
    display_sentiment "Neutral" = Sentiment.positive
    ∨ display_sentiment "Neutral" = Sentiment.negative
    ∨ display_sentiment "Neutral" = Sentiment.neutral :=
  (summarize_sentiment_display [⟨Role.user, "hi"⟩] (OpenAIOutcome.ok "x")
    "x" "Neutral" (by decide)).1

/-- C3, counterexample: a remote text containing the marker twice makes
`summary, sentiment = result.split("Sentiment:")` raise `ValueError`
(three fragments), which the enclosing `except` turns into `(None, None)`;
the claim instead requires a parsed summary/sentiment for every text that
contains the marker. -/
theorem summarize_double_marker_fails :
    (generate_summary_and_sentiment [⟨Role.user, "hi"⟩]
        (OpenAIOutcome.ok "A Sentiment: B Sentiment: C")).1 = none
    ∧ pyContains "A Sentiment: B Sentiment: C" "Sentiment:" = true := by
  decide

/-- C3 (amended): on a non-empty history with returned text `t`: if `t`
does not contain the marker `"Sentiment:"`, the result is the whole text
stripped with sentiment `"Neutral"`; if `t` contains the marker exactly
once — the split yields two fragments `a, b` — the result is
`(strip a, strip b)`; if the marker occurs two or more times (three or
more fragments), the parse fails and summarize returns an error. -/
theorem summarize_marker_parse (messages : List Message)
    (outcome : OpenAIOutcome) (t : String)
    (hm : messages ≠ []) (ho : outcome = OpenAIOutcome.ok t) :
    (pyContains t "Sentiment:" = false →
      (generate_summary_and_sentiment messages outcome).1
        = some (pyStrip t, "Neutral"))
    ∧ (∀ a b, pyContains t "Sentiment:" = true →
        pySplit t "Sentiment:" = [a, b] →
      (generate_summary_and_sentiment messages outcome).1
        = some (pyStrip a, pyStrip b))
    ∧ (∀ parts, pyContains t "Sentiment:" = true →
        pySplit t "Sentiment:" = parts → 3 ≤ parts.length →
      (generate_summary_and_sentiment messages outcome).1 = none) := by
  subst ho
  have hm' : messages.isEmpty = false := by
    cases messages with
    | nil => exact absurd rfl hm
    | cons a t2 => rfl
  refine ⟨fun hc => ?_, fun a b hc hsplit => ?_, fun parts hc hsplit hlen => ?_⟩
  · simp [generate_summary_and_sentiment, hm', hc]
  · simp [generate_summary_and_sentiment, hm', hc, hsplit, pyStrip_idem]
  · rcases parts with _ | ⟨a, _ | ⟨b, _ | ⟨c, r⟩⟩⟩
    · simp at hlen
    · simp at hlen
    · simp at hlen
    · simp [generate_summary_and_sentiment, hm', hc, hsplit]

/-- Witness for C3's amended theorem: a single-marker text parses into the
stripped fragments. -/
theorem summarize_marker_parse_w :
    (generate_summary_and_sentiment [⟨Role.user, "hi"⟩]
        (OpenAIOutcome.ok "Good talk. Sentiment: Positive")).1
      = some (pyStrip "Good talk. ", pyStrip " Positive") :=
  (summarize_marker_parse [⟨Role.user, "hi"⟩]
      (OpenAIOutcome.ok "Good talk. Sentiment: Positive")
      "Good talk. Sentiment: Positive" (by decide) rfl).2.1
    "Good talk. " " Positive" (by decide) (by decide)

/-- C4: on an empty history, summarize returns exactly the fixed default
pair and issues no call to the OpenAI API (the recorded call list is
empty whatever the remote outcome would have been). -/
theorem summarize_empty_default (outcome : OpenAIOutcome) :
    generate_summary_and_sentiment [] outcome
      = (some ("No conversation to summarize", "Neutral"), []) := rfl

/-- C5: on every non-empty history, the single prompt sent to the OpenAI
API is the fixed instruction template around the serialization of the
history, one line per message formatted `<role>: <content>` joined in
chronological order; and the serialization of
`[user: "hi", assistant: "hello"]` is exactly `"user: hi\nassistant:
hello"`. -/
theorem serialization_sent (messages : List Message) (outcome : OpenAIOutcome)
    (hm : messages ≠ []) :
    (generate_summary_and_sentiment messages outcome).2
      = [summaryTemplate
          (String.intercalate "\n"
            (messages.map fun m => m.role.str ++ ": " ++ m.content))]
    ∧ conversationText [⟨Role.user, "hi"⟩, ⟨Role.assistant, "hello"⟩]
      = "user: hi\nassistant: hello" := by
  have hm' : messages.isEmpty = false := by
    cases messages with
    | nil => exact absurd rfl hm
    | cons a t2 => rfl
  constructor
  · cases outcome with
    | err => simp [generate_summary_and_sentiment, hm', conversationText]
    | ok t =>
      simp only [generate_summary_and_sentiment, hm', Bool.false_eq_true,
        if_false, conversationText]
      split
      · split <;> rfl
      · rfl
  · decide

/-- Witness for C5 at the concrete two-message history of the claim. -/
theorem serialization_sent_w :
    (generate_summary_and_sentiment
        [⟨Role.user, "hi"⟩, ⟨Role.assistant, "hello"⟩]
        (OpenAIOutcome.ok "S")).2
      = [summaryTemplate "user: hi\nassistant: hello"] := by
  have h := serialization_sent
    [⟨Role.user, "hi"⟩, ⟨Role.assistant, "hello"⟩]
    (OpenAIOutcome.ok "S") (by decide)
  have h2 := h.1
  rw [show String.intercalate "\n"
      (([⟨Role.user, "hi"⟩, ⟨Role.assistant, "hello"⟩] : List Message).map
        fun m => m.role.str ++ ": " ++ m.content)
      = "user: hi\nassistant: hello" from by decide] at h2
  exact h2

end AppV2
